import Mathlib

/-!
Verification of the NTHU OGA change-detection scripts.

The repository holds two variants of one linear script:
scripts/check_nthu.py (the later variant, with extra debug logging and
synthetic fallback items) and .github/scripts/check_nthu.py (the earlier
variant).  The pure logic of both variants (compare_data, relative URL
fixing, the extraction loops, the control flow of main and of
save_json_safely) is embedded shallowly below; the I/O boundaries (the
HTTP fetch, the HTML parse, the file system, directory creation) are
represented by explicit outcome parameters injected into the embedded
functions.

String operations used by the scripts (startswith, strip, lower,
substring membership) are implemented here on the character-list
representation by structural recursion, so that every definition is
executable and kernel-reducible on concrete inputs.
-/

/-- Character-list prefix test, structural recursion. -/
def startsWithSeg : List Char → List Char → Bool
  | [], _ => true
  | _ :: _, [] => false
  | p :: ps, c :: cs => p == c && startsWithSeg ps cs

/-- Python str.startswith on the character-list representation. -/
def strStartsWith (s pre : String) : Bool := startsWithSeg pre.data s.data

/-- Occurrence of a contiguous segment, structural recursion: Python
membership test pat in s. -/
def segOccurs (pat : List Char) : List Char → Bool
  | [] => pat.isEmpty
  | c :: cs => startsWithSeg pat (c :: cs) || segOccurs pat cs

/-- Python substring membership pat in s. -/
def strHasSegment (s pat : String) : Bool := segOccurs pat.data s.data

/-- ASCII whitespace recognized by the trim model. -/
def isSpaceChar (c : Char) : Bool := c == ' ' || c == '\t' || c == '\n' || c == '\r'

/-- Drop leading whitespace characters. -/
def dropWhileSpace : List Char → List Char
  | [] => []
  | c :: cs => if isSpaceChar c then dropWhileSpace cs else c :: cs

/-- Python str.strip: remove whitespace at both ends. -/
def strTrim (s : String) : String :=
  ⟨(dropWhileSpace (dropWhileSpace s.data).reverse).reverse⟩

/-- Lower-case one ASCII letter. -/
def lowerChar (c : Char) : Char :=
  if 65 ≤ c.toNat && c.toNat ≤ 90 then Char.ofNat (c.toNat + 32) else c

/-- Python str.lower, restricted to ASCII (sufficient for the hrefs the
scripts compare keywords against). -/
def strLower (s : String) : String := ⟨s.data.map lowerChar⟩

/-- One discovered link, as both scripts build it and as the JSON snapshot
stores it: a dict with string keys title, url, scrape_date. -/
structure Item where
  title : String
  url : String
  scrape_date : String
  deriving Repr, DecidableEq

/-- Inner loop of compare_data over previous_data: is_new starts true and
becomes false at the first previous item whose title and url both equal
the current one (the loop breaks there). -/
def isNewItem (c : Item) : List Item → Bool
  | [] => true
  | p :: rest =>
    if c.title == p.title && c.url == p.url then false else isNewItem c rest

/-- Outer loop of compare_data over current_data: items judged new by the
inner loop are appended to updates in encounter order. -/
def compareLoop (prev : List Item) : List Item → List Item
  | [] => []
  | c :: rest =>
    if isNewItem c prev then c :: compareLoop prev rest else compareLoop prev rest

/-- compare_data of both script variants (the two copies are textually
identical).  previous_data is None or a list; the guard checking not
previous_data is true both for None and for the empty list, and in either
case current_data is returned whole. -/
def compare_data (current_data : List Item) (previous_data : Option (List Item)) : List Item :=
  match previous_data with
  | none => current_data
  | some prev => if prev.isEmpty then current_data else compareLoop prev current_data

/-- Identity of items for change detection, in the words of the spec: the
pair of title and url matches under exact string equality of both fields. -/
def sameIdentity (c p : Item) : Prop := c.title = p.title ∧ c.url = p.url

instance (c p : Item) : Decidable (sameIdentity c p) := by
  unfold sameIdentity
  infer_instance

/-- Fixed base origin of the scraped site, used for relative URL fixing. -/
def base_url : String := "https://oga.site.nthu.edu.tw"

/-- Relative URL fixing in the primary extraction loop of both variants
and in the fallback loop of the .github variant: when the url is
non-empty and starts with neither the http nor the https scheme prefix,
the base origin is prepended, with a slash inserted unless the url
already leads with one. -/
def fixRelativeUrl (url : String) : String :=
  if url != "" && !(strStartsWith url "http://" || strStartsWith url "https://") then
    if strStartsWith url "/" then base_url ++ url else base_url ++ "/" ++ url
  else url

/-- Relative URL fixing in the fallback loop of the scripts variant: the
inline conditional there omits the emptiness test (its guard has already
required a non-empty href). -/
def fixHref (href : String) : String :=
  if strStartsWith href "http://" || strStartsWith href "https://" then href
  else if strStartsWith href "/" then base_url ++ href else base_url ++ "/" ++ href

/-- One hyperlink element found by the HTML parse: its visible text (as
returned before stripping) and its href attribute (the empty string when
the attribute is missing, matching the get call with default). -/
structure Anchor where
  text : String
  href : String
  deriving Repr, DecidableEq

/-- Abstraction of the parsed HTML page, carrying exactly the query
results the two scrapers inspect: for each div of class mtitle its first
anchor descendant (none when the div holds no anchor), the list of all
anchors on the page (used by the scripts-variant fallback), and for each
div on the page the anchors found inside it (used by the dot-github
variant fallback; an anchor nested under several divs appears once per
enclosing div, as the nested find_all calls return it). -/
structure Page where
  mtitleAnchors : List (Option Anchor)
  allAnchors : List Anchor
  divAnchors : List (List Anchor)
  deriving Repr, DecidableEq

/-- Outcome of the requests.get call: a response with its HTTP status and
parsed body, a raised RequestException (network error or timeout), or any
other raised exception. -/
inductive FetchOutcome where
  | response (status : Nat) (page : Page)
  | requestExn (msg : String)
  | otherExn (msg : String)
  deriving Repr, DecidableEq

/-- Fixed URL of the scraped page, as in both scripts. -/
def URL : String := "https://oga.site.nthu.edu.tw/p/403-1524-8945-1.php?Lang=en"

/-- Primary extraction loop, identical in both variants: for each mtitle
div holding an anchor, an item is built from the stripped anchor text and
the fixed href, stamped with the current date. -/
def primaryLoop (today : String) : List (Option Anchor) → List Item
  | [] => []
  | none :: rest => primaryLoop today rest
  | some a :: rest =>
    ⟨strTrim a.text, fixRelativeUrl a.href, today⟩ :: primaryLoop today rest

/-- Fallback loop of the scripts variant: every anchor on the page whose
stripped text is non-empty, whose href is non-empty, and whose lowered
href contains one of the keywords news, article or post becomes an item. -/
def newsLinksLoop (today : String) : List Anchor → List Item
  | [] => []
  | a :: rest =>
    let text := strTrim a.text
    let href := a.href
    if text != "" && href != "" &&
        (strHasSegment (strLower href) "news" || strHasSegment (strLower href) "article" ||
          strHasSegment (strLower href) "post") then
      ⟨text, fixHref href, today⟩ :: newsLinksLoop today rest
    else newsLinksLoop today rest

/-- Inner fallback loop of the dot-github variant, over the anchors of one
div: kept are anchors with non-empty stripped text, non-empty href, and
stripped text longer than 10 characters. -/
def ghDivLoop (today : String) : List Anchor → List Item
  | [] => []
  | a :: rest =>
    let text := strTrim a.text
    let href := a.href
    if text != "" && href != "" && decide (10 < text.length) then
      ⟨text, fixRelativeUrl href, today⟩ :: ghDivLoop today rest
    else ghDivLoop today rest

/-- Outer fallback loop of the dot-github variant: the inner loop runs for
every div on the page, appending into one shared list. -/
def ghFallbackLoop (today : String) : List (List Anchor) → List Item
  | [] => []
  | links :: rest => ghDivLoop today links ++ ghFallbackLoop today rest

/-- Synthetic item the scripts variant returns when nothing at all could
be extracted from a loaded page. -/
def scraperAlertItem (today : String) : Item :=
  ⟨"Scraper Alert: No data found", URL, today⟩

/-- Synthetic item the scripts variant returns from its RequestException
handler; msg stands for the str of the exception. -/
def scraperErrorItem (msg today : String) : Item :=
  ⟨"Scraper Error: " ++ msg, URL, today⟩

/-- Synthetic item the scripts variant returns from its generic exception
handler. -/
def scraperUnexpectedItem (msg today : String) : Item :=
  ⟨"Scraper Unexpected Error: " ++ msg, URL, today⟩

/-- The raise_for_status call raises HTTPError exactly for status codes
400 through 599; the scripts variant only reaches it for statuses other
than 200, which makes no observable difference since 200 is outside that
range. -/
def raisesForStatus (status : Nat) : Bool := 400 ≤ status && status < 600

/-- Stand-in for the str of the HTTPError raised by raise_for_status; the
exact wording is produced inside the requests library and no claim
depends on it, only on the resulting item being synthetic. -/
def httpErrorMsg (status : Nat) : String := "HTTP error " ++ toString status

/-- scrape_nthu_oga of scripts/check_nthu.py, the fetch and parse
abstracted into a FetchOutcome.  On a response: statuses 400 to 599 raise
inside the try and are caught as a RequestException; otherwise the
primary loop runs; if it found nothing and the status is exactly 200, the
keyword fallback runs and replaces the result only when itself non-empty;
finally an empty result is replaced by the synthetic alert item.  Raised
exceptions map to a single synthetic error item. -/
def scrape_nthu_oga (today : String) (fetch : FetchOutcome) : List Item :=
  match fetch with
  | .requestExn msg => [scraperErrorItem msg today]
  | .otherExn msg => [scraperUnexpectedItem msg today]
  | .response status page =>
    if raisesForStatus status then [scraperErrorItem (httpErrorMsg status) today]
    else
      let current_data := primaryLoop today page.mtitleAnchors
      let current_data :=
        if current_data.isEmpty && status == 200 then
          let news_links := newsLinksLoop today page.allAnchors
          if news_links.isEmpty then current_data else news_links
        else current_data
      if 0 < current_data.length then current_data else [scraperAlertItem today]

/-- scrape_nthu_oga of the dot-github variant: no status check at all (the
body is parsed whatever the status); when the primary loop found nothing
the per-div fallback runs and its result is truncated to the first 10
items; every raised exception is caught and yields the empty list. -/
def scrape_nthu_oga_gh (today : String) (fetch : FetchOutcome) : List Item :=
  match fetch with
  | .requestExn _ => []
  | .otherExn _ => []
  | .response _ page =>
    let current_data := primaryLoop today page.mtitleAnchors
    if current_data.isEmpty then (ghFallbackLoop today page.divAnchors).take 10
    else current_data

/-- Success flags for the three file-system effects save_json_safely
attempts: writing the temporary file, the atomic replace, and the direct
overwrite used as fallback. -/
structure SaveEnv where
  tempWriteOk : Bool
  replaceOk : Bool
  directWriteOk : Bool
  deriving Repr, DecidableEq

/-- File system abstraction: association of paths to file contents. -/
structure FS where
  contents : List (String × String)
  deriving Repr, DecidableEq

/-- Write a file, replacing any previous entry for the path. -/
def fsWrite (fs : FS) (path s : String) : FS :=
  ⟨(path, s) :: fs.contents.filter (fun e => e.1 != path)⟩

/-- Read a file. -/
def fsRead (fs : FS) (path : String) : Option String :=
  (fs.contents.find? (fun e => e.1 == path)).map Prod.snd

/-- Remove a file. -/
def fsErase (fs : FS) (path : String) : FS :=
  ⟨fs.contents.filter (fun e => e.1 != path)⟩

/-- os.replace: atomically move the contents at src onto dst. -/
def fsReplace (fs : FS) (src dst : String) : FS :=
  match fsRead fs src with
  | none => fs
  | some s => fsWrite (fsErase fs src) dst s

/-- Serialization of one item, modelling the json.dump rendering of the
snapshot (exact whitespace of the indented form is immaterial to every
claim). -/
def dumpItem (it : Item) : String :=
  "\x7b\"title\": \"" ++ it.title ++ "\", \"url\": \"" ++ it.url ++
    "\", \"scrape_date\": \"" ++ it.scrape_date ++ "\"\x7d"

/-- Serialization of the item list written by save_json_safely. -/
def dumpJson (data : List Item) : String :=
  "[" ++ String.intercalate ", " (data.map dumpItem) ++ "]"

/-- save_json_safely of both variants (textually identical): write the
serialization to filename plus a tmp suffix, then os.replace it onto
filename; if anything in that sequence raises, fall back to opening
filename directly and writing the serialization; a failure of that
fallback too propagates to the caller as an error. -/
def save_json_safely (env : SaveEnv) (fs : FS) (data : List Item) (filename : String) :
    Except String FS :=
  let temp_filename := filename ++ ".tmp"
  if env.tempWriteOk then
    let fs1 := fsWrite fs temp_filename (dumpJson data)
    if env.replaceOk then .ok (fsReplace fs1 temp_filename filename)
    else if env.directWriteOk then .ok (fsWrite fs1 filename (dumpJson data))
    else .error ("Critical error saving file " ++ filename)
  else if env.directWriteOk then .ok (fsWrite fs filename (dumpJson data))
  else .error ("Critical error saving file " ++ filename)

/-- Condition under which save_json_safely returns without raising. -/
def saveSucceeds (env : SaveEnv) : Bool :=
  env.tempWriteOk && env.replaceOk || env.directWriteOk

/-- State of the snapshot file when main starts: missing, present but not
parseable as JSON (json.load raises), or parsed to a list of items. -/
inductive PrevFile where
  | absent
  | unreadable
  | parsed (data : List Item)
  deriving Repr, DecidableEq

/-- Value previous_data holds after the loading step of main: it stays
None when the file is missing and also when json.load raised (the except
branch only logs). -/
def loadPrevious : PrevFile → Option (List Item)
  | .absent => none
  | .unreadable => none
  | .parsed d => some d

/-- Observable outcome of one run of main: the process exit status, the
item list successfully persisted to the snapshot file (none when no write
succeeded), the change list handed to send_notification (none when no
notification happened), and whether the branch printing that no data was
scraped was reached. -/
structure RunResult where
  exitCode : Nat
  snapshotWritten : Option (List Item)
  notified : Option (List Item)
  emptyDataExit : Bool
  deriving Repr, DecidableEq

/-- main of scripts/check_nthu.py.  ensure_data_directory may raise
(dirOk false), reaching the top-level handler and sys.exit 1.  An empty
scrape hits the explicit sys.exit 1 branch.  Otherwise the previous
snapshot is loaded (a parse failure only logs), compare_data computes the
updates, and both branches call save_json_safely on the full current
data; the notification precedes the save and so happens even when the
save then fails; a save failure raises to the top-level handler, which
exits 1.  All other statements of main (debug printing, the os.system git
calls) raise nothing and are omitted. -/
def runMain (today : String) (fetch : FetchOutcome) (prevFile : PrevFile)
    (env : SaveEnv) (dirOk : Bool) : RunResult :=
  if !dirOk then ⟨1, none, none, false⟩
  else if (scrape_nthu_oga today fetch).isEmpty then ⟨1, none, none, true⟩
  else if !(compare_data (scrape_nthu_oga today fetch) (loadPrevious prevFile)).isEmpty then
    if saveSucceeds env then
      ⟨0, some (scrape_nthu_oga today fetch),
        some (compare_data (scrape_nthu_oga today fetch) (loadPrevious prevFile)), false⟩
    else ⟨1, none, some (compare_data (scrape_nthu_oga today fetch) (loadPrevious prevFile)), false⟩
  else if saveSucceeds env then ⟨0, some (scrape_nthu_oga today fetch), none, false⟩
  else ⟨1, none, none, false⟩

/-- main of the dot-github variant: identical control flow except that an
empty scrape returns from main normally (exit status 0) instead of
calling sys.exit 1. -/
def runMainGh (today : String) (fetch : FetchOutcome) (prevFile : PrevFile)
    (env : SaveEnv) (dirOk : Bool) : RunResult :=
  if !dirOk then ⟨1, none, none, false⟩
  else if (scrape_nthu_oga_gh today fetch).isEmpty then ⟨0, none, none, false⟩
  else if !(compare_data (scrape_nthu_oga_gh today fetch) (loadPrevious prevFile)).isEmpty then
    if saveSucceeds env then
      ⟨0, some (scrape_nthu_oga_gh today fetch),
        some (compare_data (scrape_nthu_oga_gh today fetch) (loadPrevious prevFile)), false⟩
    else ⟨1, none, some (compare_data (scrape_nthu_oga_gh today fetch) (loadPrevious prevFile)), false⟩
  else if saveSucceeds env then ⟨0, some (scrape_nthu_oga_gh today fetch), none, false⟩
  else ⟨1, none, none, false⟩

/-- Previous-snapshot item of the worked example in the spec, with an
older capture date but the same title and url as the current one. -/
def specItemAold : Item := ⟨"A", "https://x/a", "2024-12-01"⟩

/-- Current item matching the previous snapshot under the pair identity. -/
def specItemA : Item := ⟨"A", "https://x/a", "2025-01-01"⟩

/-- Current item absent from the previous snapshot. -/
def specItemB : Item := ⟨"B", "https://x/b", "2025-01-01"⟩

/-- Anchor inside an mtitle div, with surrounding whitespace in its text
and an origin-relative href. -/
def anchorA : Anchor := ⟨" New Post A ", "/p/1.php"⟩

/-- Page whose primary selector yields one anchor. -/
def pageA : Page := ⟨[some anchorA], [], []⟩

/-- Item the primary loop builds from anchorA on 2025-01-04. -/
def itemAfix : Item := ⟨"New Post A", "https://oga.site.nthu.edu.tw/p/1.php", "2025-01-04"⟩

/-- Item only present in the previous snapshot. -/
def oldItem : Item := ⟨"Old Post", "https://oga.site.nthu.edu.tw/p/0.php", "2024-12-31"⟩

/-- Anchor text longer than the ten-character threshold. -/
def longTitleText : String := "Long announcement title text"

/-- Anchor with long text whose href contains the keyword news. -/
def anchorNewsKept : Anchor := ⟨longTitleText, "/news/1"⟩

/-- Anchor with the same long text whose href contains no keyword. -/
def anchorNewsDropped : Anchor := ⟨longTitleText, "/p/1.php"⟩

/-- Page on which the primary selector yields nothing and the fallback
must choose between two anchors with identical visible text. -/
def fallbackPage : Page :=
  ⟨[], [anchorNewsKept, anchorNewsDropped], [[anchorNewsKept, anchorNewsDropped]]⟩

/-- A list that is not nil has isEmpty false. -/
theorem isEmpty_false_of_ne_nil {α : Type} {l : List α} (h : l ≠ []) : l.isEmpty = false := by
  cases l with
  | nil => exact absurd rfl h
  | cons a t => rfl

/-- The Boolean pair test in the inner loop of compare_data decides the
identity predicate of the spec. -/
theorem beqPair_eq_decide (c p : Item) :
    (c.title == p.title && c.url == p.url) = decide (sameIdentity c p) := by
  by_cases h1 : c.title = p.title <;> by_cases h2 : c.url = p.url <;>
    simp [sameIdentity, h1, h2]

/-- The inner loop of compare_data returns true exactly when no previous
item shares both fields with the current one. -/
theorem isNewItem_eq_decide (c : Item) (prev : List Item) :
    isNewItem c prev = decide (∀ p ∈ prev, ¬ sameIdentity c p) := by
  induction prev with
  | nil => simp [isNewItem]
  | cons p rest ih =>
    simp only [isNewItem, beqPair_eq_decide, ih]
    by_cases h : sameIdentity c p <;> simp [h]

/-- The guard closing the scripts-variant scraper can never produce nil. -/
theorem ite_length_ne_nil (today : String) (l : List Item) :
    (if 0 < l.length then l else [scraperAlertItem today]) ≠ [] := by
  split
  · next h => exact List.length_pos.mp h
  · simp

/-- The scripts-variant scraper returns a non-empty list on every path:
every exception handler returns a synthetic singleton, and a loaded page
that yields nothing is replaced by the synthetic alert singleton. -/
theorem scrape_nthu_oga_ne_nil (today : String) (fetch : FetchOutcome) :
    scrape_nthu_oga today fetch ≠ [] := by
  cases fetch with
  | requestExn msg => simp [scrape_nthu_oga, scraperErrorItem]
  | otherExn msg => simp [scrape_nthu_oga, scraperUnexpectedItem]
  | response status page =>
    simp only [scrape_nthu_oga]
    split
    · simp
    · exact ite_length_ne_nil today _

/-- The branch of runMain reserved for an empty scrape is skipped on
every input, since the scripts-variant scraper never returns nil. -/
theorem runMain_skips_empty_branch (today : String) (fetch : FetchOutcome) :
    (scrape_nthu_oga today fetch).isEmpty = false :=
  isEmpty_false_of_ne_nil (scrape_nthu_oga_ne_nil today fetch)

/-- Reading a path immediately after writing it returns the written
contents. -/
theorem fsRead_fsWrite_same (fs : FS) (p s : String) :
    fsRead (fsWrite fs p s) p = some s := by
  simp [fsRead, fsWrite, List.find?]

/-- After an os.replace whose source held s, the destination holds s. -/
theorem fsRead_fsReplace_dst (fs : FS) (src dst s : String) (h : fsRead fs src = some s) :
    fsRead (fsReplace fs src dst) dst = some s := by
  simp [fsReplace, h, fsRead_fsWrite_same]

/-- Whenever runMain reports a successfully persisted snapshot, that
snapshot is the full scraper output of the scripts variant. -/
theorem runMain_snapshot_eq (today : String) (fetch : FetchOutcome) (prevFile : PrevFile)
    (env : SaveEnv) (dirOk : Bool) (s : List Item)
    (h : (runMain today fetch prevFile env dirOk).snapshotWritten = some s) :
    s = scrape_nthu_oga today fetch := by
  unfold runMain at h
  repeat' split at h
  all_goals first
    | exact (Option.some_inj.mp h).symm
    | simp at h

/-- Whenever runMainGh reports a successfully persisted snapshot, that
snapshot is the full scraper output of the dot-github variant. -/
theorem runMainGh_snapshot_eq (today : String) (fetch : FetchOutcome) (prevFile : PrevFile)
    (env : SaveEnv) (dirOk : Bool) (s : List Item)
    (h : (runMainGh today fetch prevFile env dirOk).snapshotWritten = some s) :
    s = scrape_nthu_oga_gh today fetch := by
  unfold runMainGh at h
  repeat' split at h
  all_goals first
    | exact (Option.some_inj.mp h).symm
    | simp at h

/-- The inner fallback loop of the dot-github variant is the filterMap of
its keep condition over the anchors of one div, in order. -/
theorem ghDivLoop_eq_filterMap (today : String) (l : List Anchor) :
    ghDivLoop today l =
      l.filterMap (fun a =>
        if strTrim a.text != "" && a.href != "" && decide (10 < (strTrim a.text).length) then
          some ⟨strTrim a.text, fixRelativeUrl a.href, today⟩
        else none) := by
  induction l with
  | nil => rfl
  | cons a rest ih =>
    simp only [ghDivLoop, List.filterMap_cons]
    cases hc : (strTrim a.text != "" && a.href != "" && decide (10 < (strTrim a.text).length)) <;>
      simp [ih]

/-- The outer fallback loop of the dot-github variant is the filterMap of
the keep condition over the concatenation of the per-div anchor lists. -/
theorem ghFallbackLoop_eq_filterMap (today : String) (ls : List (List Anchor)) :
    ghFallbackLoop today ls =
      ls.flatten.filterMap (fun a =>
        if strTrim a.text != "" && a.href != "" && decide (10 < (strTrim a.text).length) then
          some ⟨strTrim a.text, fixRelativeUrl a.href, today⟩
        else none) := by
  induction ls with
  | nil => rfl
  | cons l rest ih =>
    simp only [ghFallbackLoop, List.flatten_cons, List.filterMap_append, ih,
      ghDivLoop_eq_filterMap]

/-- The fallback loop of the scripts variant is the filterMap of its
keyword keep condition over all anchors of the page, in order. -/
theorem newsLinksLoop_eq_filterMap (today : String) (l : List Anchor) :
    newsLinksLoop today l =
      l.filterMap (fun a =>
        if strTrim a.text != "" && a.href != "" &&
            (strHasSegment (strLower a.href) "news" || strHasSegment (strLower a.href) "article" ||
              strHasSegment (strLower a.href) "post") then
          some ⟨strTrim a.text, fixHref a.href, today⟩
        else none) := by
  induction l with
  | nil => rfl
  | cons a rest ih =>
    simp only [newsLinksLoop, List.filterMap_cons]
    cases hc : (strTrim a.text != "" && a.href != "" &&
        (strHasSegment (strLower a.href) "news" || strHasSegment (strLower a.href) "article" ||
          strHasSegment (strLower a.href) "post")) <;>
      simp [ih]

/-- C1: for every current list and every non-empty previous snapshot,
compare_data returns exactly those items of current whose pair of title
and url matches no item of previous under exact string equality of both
fields, and it returns them in the original order of current — stated as
equality with the order-preserving filter of current by that condition. -/
theorem c1_compare_data_new_items (current prev : List Item) (h : prev ≠ []) :
    compare_data current (some prev) =
      current.filter (fun c => decide (∀ p ∈ prev, ¬ sameIdentity c p)) := by
  have he := isEmpty_false_of_ne_nil h
  simp only [compare_data, he, Bool.false_eq_true, if_false]
  induction current with
  | nil => rfl
  | cons c rest ih =>
    simp only [compareLoop, isNewItem_eq_decide, List.filter_cons, ih]

/-- C1 witness: the worked example of the spec, the previous snapshot
holding item A and the current extraction holding items A and B; the
non-emptiness hypothesis of the claim theorem is discharged at this
concrete input. -/
theorem c1_witness :
    compare_data [specItemA, specItemB] (some [specItemAold]) =
      List.filter (fun c => decide (∀ p ∈ [specItemAold], ¬ sameIdentity c p))
        [specItemA, specItemB] :=
  c1_compare_data_new_items [specItemA, specItemB] [specItemAold] (by decide)

/-- C5: when no prior snapshot exists (previous absent, modelled as
none), compare_data returns the full current list unchanged, in the same
order. -/
theorem c5_first_run_all_new (current : List Item) :
    compare_data current none = current := rfl

/-- C6 counterexample: an href that is already an absolute URL because it
starts with the ftp scheme is not left unchanged by the resolution step;
the code tests only for the two literal http and https prefixes and
prefixes the base origin onto every other scheme. -/
theorem c6_counterexample :
    fixRelativeUrl "ftp://example.com/a" =
      "https://oga.site.nthu.edu.tw/ftp://example.com/a" ∧
    fixRelativeUrl "ftp://example.com/a" ≠ "ftp://example.com/a" := by
  decide

/-- C6 amended: the resolution step maps the origin-relative href
/p/123.php to https://oga.site.nthu.edu.tw/p/123.php, maps the
document-relative href 123.php to https://oga.site.nthu.edu.tw/123.php,
and leaves an href unchanged exactly when it is empty or starts with the
literal http or https scheme prefix; every other href, including an
absolute href with any other scheme, is prefixed with the base origin
and thereby changed. -/
theorem c6_amended_resolution (u : String) :
    fixRelativeUrl "/p/123.php" = "https://oga.site.nthu.edu.tw/p/123.php" ∧
    fixRelativeUrl "123.php" = "https://oga.site.nthu.edu.tw/123.php" ∧
    (fixRelativeUrl u = u ↔
      u = "" ∨ strStartsWith u "http://" = true ∨ strStartsWith u "https://" = true) := by
  refine ⟨by decide, by decide, ?_⟩
  constructor
  · intro h
    by_contra hc
    push_neg at hc
    obtain ⟨h1, h2, h3⟩ := hc
    have h2f : strStartsWith u "http://" = false := by simpa using h2
    have h3f : strStartsWith u "https://" = false := by simpa using h3
    have hne : (u != "") = true := bne_iff_ne.mpr h1
    unfold fixRelativeUrl at h
    rw [hne, h2f, h3f] at h
    simp only [Bool.or_self, Bool.not_false, Bool.and_self, if_true] at h
    split at h
    · have hl := congrArg String.length h
      rw [String.length_append] at hl
      have hb : base_url.length = 28 := by decide
      omega
    · have hl := congrArg String.length h
      rw [String.length_append, String.length_append] at hl
      have hb : base_url.length = 28 := by decide
      have hs : "/".length = 1 := by decide
      omega
  · intro h
    rcases h with h | h | h
    · subst h
      decide
    · unfold fixRelativeUrl
      simp [h]
    · unfold fixRelativeUrl
      simp [h]

/-- C2 counterexample: in the scripts variant a network failure of the
fetch makes the extractor report a synthetic one-item list rather than an
empty one, and the run then proceeds and persists that list as the
snapshot instead of terminating early without a write. -/
theorem c2_counterexample :
    scrape_nthu_oga "2025-01-01" (.requestExn "timeout") ≠ [] ∧
    (runMain "2025-01-01" (.requestExn "timeout") .absent ⟨true, true, true⟩
        true).snapshotWritten =
      some [scraperErrorItem "timeout" "2025-01-01"] := by
  decide

/-- C2 amended: in the dot-github variant a raised network error or
timeout makes the extractor report an empty sequence and the run
terminate early (without writing the snapshot, with exit status zero),
while a non-success HTTP status is not treated as failure there at all
(the body is parsed the same as under status 200); in the scripts variant
the same fetch failure instead yields a single synthetic error item and
the run proceeds and, when saving succeeds, writes that item as the
snapshot. -/
theorem c2_amended_fetch_failure (today msg : String) (prevFile : PrevFile) (env : SaveEnv)
    (status : Nat) (page : Page) :
    scrape_nthu_oga_gh today (.requestExn msg) = [] ∧
    (runMainGh today (.requestExn msg) prevFile env true).snapshotWritten = none ∧
    (runMainGh today (.requestExn msg) prevFile env true).exitCode = 0 ∧
    scrape_nthu_oga_gh today (.response status page) =
      scrape_nthu_oga_gh today (.response 200 page) ∧
    scrape_nthu_oga today (.requestExn msg) = [scraperErrorItem msg today] ∧
    (saveSucceeds env = true →
      (runMain today (.requestExn msg) prevFile env true).snapshotWritten =
        some [scraperErrorItem msg today]) := by
  refine ⟨rfl, rfl, rfl, rfl, rfl, fun hs => ?_⟩
  unfold runMain
  cases hc : (compare_data (scrape_nthu_oga today (.requestExn msg))
      (loadPrevious prevFile)).isEmpty <;>
    simp [scrape_nthu_oga, hc, hs]

/-- C2 witness: the amended theorem applied at a concrete failing fetch
with an environment in which only the direct write succeeds, discharging
the save-success hypothesis there. -/
theorem c2_witness :
    (runMain "2025-01-02" (.requestExn "refused") .absent ⟨false, false, true⟩
        true).snapshotWritten =
      some [scraperErrorItem "refused" "2025-01-02"] :=
  (c2_amended_fetch_failure "2025-01-02" "refused" .absent ⟨false, false, true⟩ 200
      ⟨[], [], []⟩).2.2.2.2.2 rfl

/-- C3 counterexample: in the dot-github variant a run in which the fetch
raises and zero items are extracted completes with exit status zero, not
the non-zero status the claim requires for an unrecoverable failure. -/
theorem c3_counterexample :
    scrape_nthu_oga_gh "2025-01-03" (.requestExn "timeout") = [] ∧
    (runMainGh "2025-01-03" (.requestExn "timeout") .absent ⟨true, true, true⟩
        true).exitCode = 0 := by
  decide

/-- C3 amended: the scripts variant exits non-zero exactly when directory
creation or the snapshot save fails (an unhandled exception); a run with
zero extractable items cannot reach its empty-data exit because the
extractor substitutes a synthetic item.  The dot-github variant exits
non-zero exactly when directory creation fails or the extraction was
non-empty and the save then fails; an empty extraction returns early with
exit status zero.  Normal completion exits zero in both. -/
theorem c3_amended_exit_status (today : String) (fetch : FetchOutcome) (prevFile : PrevFile)
    (env : SaveEnv) (dirOk : Bool) :
    ((runMain today fetch prevFile env dirOk).exitCode ≠ 0 ↔
      dirOk = false ∨ saveSucceeds env = false) ∧
    ((runMainGh today fetch prevFile env dirOk).exitCode ≠ 0 ↔
      dirOk = false ∨ (scrape_nthu_oga_gh today fetch ≠ [] ∧ saveSucceeds env = false)) := by
  constructor
  · unfold runMain
    cases dirOk with
    | false => simp
    | true =>
      simp only [runMain_skips_empty_branch]
      cases hs : saveSucceeds env <;>
        cases hc : (compare_data (scrape_nthu_oga today fetch)
            (loadPrevious prevFile)).isEmpty <;>
          simp [hs, hc]
  · unfold runMainGh
    cases dirOk with
    | false => simp
    | true =>
      by_cases hg : scrape_nthu_oga_gh today fetch = []
      · simp [hg]
      · have he := isEmpty_false_of_ne_nil hg
        cases hs : saveSucceeds env <;>
          cases hc : (compare_data (scrape_nthu_oga_gh today fetch)
              (loadPrevious prevFile)).isEmpty <;>
            simp [he, hg, hs, hc]

/-- C4: whenever either variant reports a successfully persisted
snapshot, that snapshot is the full current extraction, never a merge
with the previous snapshot: every item absent from the current extraction
(in particular any item only present in the previous snapshot) is absent
from the written snapshot. -/
theorem c4_snapshot_overwrite (today : String) (fetch : FetchOutcome) (prevFile : PrevFile)
    (env : SaveEnv) (dirOk : Bool) (s : List Item) :
    ((runMain today fetch prevFile env dirOk).snapshotWritten = some s →
      s = scrape_nthu_oga today fetch ∧
      ∀ it : Item, it ∉ scrape_nthu_oga today fetch → it ∉ s) ∧
    ((runMainGh today fetch prevFile env dirOk).snapshotWritten = some s →
      s = scrape_nthu_oga_gh today fetch ∧
      ∀ it : Item, it ∉ scrape_nthu_oga_gh today fetch → it ∉ s) := by
  constructor
  · intro h
    have hs := runMain_snapshot_eq today fetch prevFile env dirOk s h
    exact ⟨hs, fun it hit => by rw [hs]; exact hit⟩
  · intro h
    have hs := runMainGh_snapshot_eq today fetch prevFile env dirOk s h
    exact ⟨hs, fun it hit => by rw [hs]; exact hit⟩

/-- C4 witness: a concrete run of the scripts variant over a page with
one new post and a previous snapshot holding a post that has disappeared;
the persisted snapshot is exactly the current extraction and the old item
is not in it. -/
theorem c4_witness :
    ([itemAfix] : List Item) = scrape_nthu_oga "2025-01-04" (.response 200 pageA) ∧
    ∀ it : Item, it ∉ scrape_nthu_oga "2025-01-04" (.response 200 pageA) →
      it ∉ ([itemAfix] : List Item) :=
  (c4_snapshot_overwrite "2025-01-04" (.response 200 pageA) (.parsed [oldItem])
      ⟨true, true, true⟩ true [itemAfix]).1 (by decide)

/-- C7: save_json_safely first writes the serialized data to the
temporary file adjacent to the target (the target path with a tmp
suffix) and atomically replaces the target with it, after which the
target holds the serialization; if that atomic sequence fails it falls
back to a direct overwrite of the target with the same serialization;
and it returns an error to its caller exactly when the atomic sequence
failed and the direct overwrite also failed. -/
theorem c7_save_json_safely (env : SaveEnv) (fs : FS) (data : List Item) (filename : String) :
    (env.tempWriteOk = true → env.replaceOk = true →
      save_json_safely env fs data filename =
        .ok (fsReplace (fsWrite fs (filename ++ ".tmp") (dumpJson data))
              (filename ++ ".tmp") filename)) ∧
    (fsRead (fsReplace (fsWrite fs (filename ++ ".tmp") (dumpJson data))
        (filename ++ ".tmp") filename) filename = some (dumpJson data)) ∧
    ((env.tempWriteOk = false ∨ env.replaceOk = false) → env.directWriteOk = true →
      ∃ fsMid, save_json_safely env fs data filename =
        .ok (fsWrite fsMid filename (dumpJson data))) ∧
    ((∃ e, save_json_safely env fs data filename = .error e) ↔
      (env.tempWriteOk = false ∨ env.replaceOk = false) ∧ env.directWriteOk = false) := by
  obtain ⟨tw, rp, dw⟩ := env
  refine ⟨?_, fsRead_fsReplace_dst _ _ _ _ (fsRead_fsWrite_same _ _ _), ?_, ?_⟩
  · intro h1 h2
    subst h1
    subst h2
    rfl
  · intro h1 h2
    subst h2
    cases tw with
    | false => exact ⟨fs, rfl⟩
    | true =>
      cases rp with
      | false => exact ⟨fsWrite fs (filename ++ ".tmp") (dumpJson data), rfl⟩
      | true => rcases h1 with h | h <;> exact absurd h (by simp)
  · cases tw <;> cases rp <;> cases dw <;> simp [save_json_safely]

/-- C7 witness: the claim theorem applied to the all-success environment
at the concrete snapshot path used by the scripts, discharging the two
hypotheses of its atomic-path conjunct there. -/
theorem c7_witness :
    save_json_safely ⟨true, true, true⟩ ⟨[]⟩ [itemAfix] "data/nthu_oga_posts.json" =
      .ok (fsReplace (fsWrite ⟨[]⟩ ("data/nthu_oga_posts.json" ++ ".tmp")
            (dumpJson [itemAfix]))
          ("data/nthu_oga_posts.json" ++ ".tmp") "data/nthu_oga_posts.json") :=
  (c7_save_json_safely ⟨true, true, true⟩ ⟨[]⟩ [itemAfix] "data/nthu_oga_posts.json").1 rfl rfl

/-- C8: a run whose prior snapshot file exists but cannot be parsed
behaves exactly like a run with no prior snapshot in both variants (the
read failure is recovered locally and is never fatal), the diff then
reports every current item as new, and in the scripts variant the
notification carries the full current extraction. -/
theorem c8_unreadable_prev (today : String) (fetch : FetchOutcome) (env : SaveEnv)
    (dirOk : Bool) :
    runMain today fetch .unreadable env dirOk = runMain today fetch .absent env dirOk ∧
    runMainGh today fetch .unreadable env dirOk = runMainGh today fetch .absent env dirOk ∧
    compare_data (scrape_nthu_oga today fetch) (loadPrevious .unreadable) =
      scrape_nthu_oga today fetch ∧
    (dirOk = true →
      (runMain today fetch .unreadable env dirOk).notified =
        some (scrape_nthu_oga today fetch)) := by
  refine ⟨rfl, rfl, rfl, fun hd => ?_⟩
  subst hd
  unfold runMain
  simp only [runMain_skips_empty_branch]
  cases hs : saveSucceeds env <;>
    simp [hs, loadPrevious, compare_data, runMain_skips_empty_branch,
      isEmpty_false_of_ne_nil (scrape_nthu_oga_ne_nil today fetch)]

/-- C8 witness: the claim theorem applied to a concrete run over an
unreadable prior snapshot, discharging the directory hypothesis there. -/
theorem c8_witness :
    (runMain "2025-01-05" (.requestExn "bad json") .unreadable ⟨true, true, true⟩
        true).notified =
      some (scrape_nthu_oga "2025-01-05" (.requestExn "bad json")) :=
  (c8_unreadable_prev "2025-01-05" (.requestExn "bad json") ⟨true, true, true⟩ true).2.2.2 rfl

/-- C9 counterexample: on a page where the primary selector yields zero
items, the scripts-variant fallback keeps one of two anchors that share
the same long visible text and drops the other, so membership is not
decided by any threshold on the trimmed visible text: the kept set is
decided by keywords in the href. -/
theorem c9_counterexample :
    scrape_nthu_oga "2025-01-06" (.response 200 fallbackPage) =
      [⟨longTitleText, "https://oga.site.nthu.edu.tw/news/1", "2025-01-06"⟩] := by
  decide

/-- C9 amended: when the primary selector yields zero items, the
dot-github variant scans the anchors of every div and keeps exactly those
with non-empty trimmed text, non-empty href, and trimmed text longer than
10 characters, truncated to the first 10 matches; the scripts variant
(on a status-200 page) scans all anchors and keeps exactly those with
non-empty trimmed text and non-empty href whose lowered href contains
news, article or post, with no length threshold, substituting the
synthetic alert item when that set is empty. -/
theorem c9_amended_fallback (today : String) (status : Nat) (page : Page)
    (hp : primaryLoop today page.mtitleAnchors = []) :
    scrape_nthu_oga_gh today (.response status page) =
      (page.divAnchors.flatten.filterMap (fun a =>
        if strTrim a.text != "" && a.href != "" && decide (10 < (strTrim a.text).length) then
          some ⟨strTrim a.text, fixRelativeUrl a.href, today⟩
        else none)).take 10 ∧
    scrape_nthu_oga today (.response 200 page) =
      (if newsLinksLoop today page.allAnchors = [] then [scraperAlertItem today]
       else newsLinksLoop today page.allAnchors) ∧
    newsLinksLoop today page.allAnchors =
      page.allAnchors.filterMap (fun a =>
        if strTrim a.text != "" && a.href != "" &&
            (strHasSegment (strLower a.href) "news" || strHasSegment (strLower a.href) "article" ||
              strHasSegment (strLower a.href) "post") then
          some ⟨strTrim a.text, fixHref a.href, today⟩
        else none) := by
  have hr : raisesForStatus 200 = false := by decide
  refine ⟨?_, ?_, newsLinksLoop_eq_filterMap today page.allAnchors⟩
  · simp [scrape_nthu_oga_gh, hp, ghFallbackLoop_eq_filterMap]
  · by_cases hn : newsLinksLoop today page.allAnchors = []
    · simp [scrape_nthu_oga, hr, hp, hn]
    · have hl : 0 < (newsLinksLoop today page.allAnchors).length :=
        List.length_pos.mpr hn
      simp [scrape_nthu_oga, hr, hp, hn, hl]

/-- C9 witness: the amended theorem applied to the concrete fallback
page, discharging the empty-primary hypothesis there. -/
theorem c9_witness :
    scrape_nthu_oga_gh "2025-01-06" (.response 200 fallbackPage) =
      (fallbackPage.divAnchors.flatten.filterMap (fun a =>
        if strTrim a.text != "" && a.href != "" && decide (10 < (strTrim a.text).length) then
          some ⟨strTrim a.text, fixRelativeUrl a.href, "2025-01-06"⟩
        else none)).take 10 :=
  (c9_amended_fallback "2025-01-06" 200 fallbackPage (by decide)).1

/-- C10: the scripts-variant scraper returns a non-empty list on every
execution path (a synthetic alert or error item stands in on total
failure), so the branch of main that exits with status 1 on empty
scraped data is unreachable: its marker is false on every input. -/
theorem c10_scraper_never_empty (today : String) (fetch : FetchOutcome) (prevFile : PrevFile)
    (env : SaveEnv) (dirOk : Bool) :
    1 ≤ (scrape_nthu_oga today fetch).length ∧
    (runMain today fetch prevFile env dirOk).emptyDataExit = false := by
  constructor
  · exact List.length_pos.mpr (scrape_nthu_oga_ne_nil today fetch)
  · unfold runMain
    cases dirOk with
    | false => rfl
    | true =>
      simp only [runMain_skips_empty_branch]
      cases hs : saveSucceeds env <;>
        cases hc : (compare_data (scrape_nthu_oga today fetch)
            (loadPrevious prevFile)).isEmpty <;>
          simp [hs, hc]
